import Mathlib

/-!
Verification of the deliberation engine of the medblip multi-agent system.

This file gives a shallow embedding, in Lean, of the session/round state
machine (`app/agents/conversation_manager.py`), the supervisor orchestration
loop (`app/agents/supervisor_agent.py`), the doctor response pipeline
(`app/agents/doctor_agent.py`) and the LangGraph routing helpers
(`app/agents/multi_agent_orchestrator.py`, `app/agents/shared_state.py`),
and proves properties of the embedded definitions.

Modelling conventions:
- Python `dict[str, α]` is an insertion-ordered association list (`PyDict`).
- Methods that mutate an object and may raise are functions
  `Manager → ... → Except EngineError β × Manager`; the returned manager
  carries mutations that happen before a raise (the Python objects are
  mutated in place even when the call then raises).
- The generation backend (`llm.invoke`) is an oracle argument: each call
  site receives the outcome of the corresponding call as an `LLMOutcome`.
- `TypedDict` contracts become structures; every constructor site in the
  repository populates all fields, so field access via `.get(k, default)`
  is plain field access here.
-/

namespace MedBlip

/-- Python `dict[str, α]`: an insertion-ordered association list with unique
keys (every dict in the embedded code is built through `pySet`). -/
abbrev PyDict (α : Type) := List (String × α)

/-- Python `d.get(k)` / `d[k]`: first binding for `k`. -/
def pyGet {α : Type} (d : PyDict α) (k : String) : Option α :=
  match d with
  | [] => none
  | (k', v) :: rest => if k' = k then some v else pyGet rest k

/-- Python `d[k] = v`: replace in place if the key exists (CPython keeps the
original position), otherwise append. -/
def pySet {α : Type} (d : PyDict α) (k : String) (v : α) : PyDict α :=
  match d with
  | [] => [(k, v)]
  | (k', v') :: rest => if k' = k then (k, v) :: rest else (k', v') :: pySet rest k v

-- ---------- Data contracts (conversation_manager.py) ----------

/-- `CaseContext` (TypedDict): case facts assembled before deliberation.
The engine only stores and forwards it, so the nested values are kept as
opaque strings. -/
structure CaseContext where
  demographics : String := ""
  symptoms : String := ""
  history : String := ""
  meds : String := ""
  medblip_findings : String := ""
  free_text : String := ""
  deriving Repr, DecidableEq, Inhabited

/-- `DoctorOpinion` (TypedDict): one expert's structured opinion. -/
structure DoctorOpinion where
  hypotheses : List String
  diagnostic_tests : List String
  reasoning : String
  critique_of_peers : String
  deriving Repr, DecidableEq, Inhabited

/-- `SupervisorDecision` (TypedDict): the coordinator's per-round decision. -/
structure SupervisorDecision where
  consensus_hypotheses : List String
  prioritized_tests : List String
  rationale : String
  termination_reason : Option String
  deriving Repr, DecidableEq, Inhabited

/-- `RoundRecord` dataclass. -/
structure RoundRecord where
  round_index : Nat
  doctor_opinions : PyDict DoctorOpinion := []
  supervisor_decision : Option SupervisorDecision := none
  deriving Repr, DecidableEq, Inhabited

/-- `SessionState` dataclass. -/
structure SessionState where
  session_id : String
  context : CaseContext
  current_round : Nat := 0
  max_rounds : Nat := 7
  rounds : List RoundRecord := []
  terminated : Bool := false
  termination_reason : Option String := none
  deriving Repr, DecidableEq, Inhabited

/-- `ConversationManager`: `max_rounds` plus the `_sessions` registry. -/
structure Manager where
  max_rounds : Nat := 7
  sessions : PyDict SessionState := []
  deriving Repr, DecidableEq, Inhabited

/-- The exceptions the engine raises (`KeyError`, `RuntimeError`,
`ValueError`), distinguished by their message. -/
inductive EngineError where
  | sessionNotFound (session_id : String)
  | sessionTerminated
  | roundLimitReached
  | noOpenRound
  | invalidOpinion (msg : String)
  | invalidDecision (msg : String)
  | panelSizeMismatch
  deriving Repr, DecidableEq

/-- The message text carried by each exception in the source. -/
def EngineError.message : EngineError → String
  | .sessionNotFound sid => "세션을 찾을 수 없습니다: " ++ sid
  | .sessionTerminated => "세션이 종료되었습니다."
  | .roundLimitReached => "최대 라운드 수에 도달했습니다."
  | .noOpenRound => "시작된 라운드가 없습니다. begin_round를 먼저 호출하세요."
  | .invalidOpinion msg => msg
  | .invalidDecision msg => msg
  | .panelSizeMismatch => "정확히 3명의 Doctor Agent가 필요합니다"

-- ---------- ConversationManager operations ----------

/-- `ConversationManager.start_session`: idempotent — returns the stored
session unchanged when the identifier is already registered. -/
def start_session (m : Manager) (sid : String) (ctx : CaseContext) :
    SessionState × Manager :=
  match pyGet m.sessions sid with
  | some st => (st, m)
  | none =>
    let st : SessionState := { session_id := sid, context := ctx, max_rounds := m.max_rounds }
    (st, { m with sessions := pySet m.sessions sid st })

/-- `ConversationManager.get_session`. -/
def get_session (m : Manager) (sid : String) : Option SessionState :=
  pyGet m.sessions sid

/-- `ConversationManager.end_session`: no-op when the session is absent. -/
def end_session (m : Manager) (sid : String) (reason : Option String) : Manager :=
  match pyGet m.sessions sid with
  | none => m
  | some st =>
    let st' := { st with terminated := true, termination_reason := reason }
    { m with sessions := pySet m.sessions sid st' }

/-- `ConversationManager.begin_round`.  On the round-limit branch the session
is terminated (with reason `"라운드 한도 도달"`) before the exception is
raised, so the returned manager carries that mutation. -/
def begin_round (m : Manager) (sid : String) : Except EngineError Nat × Manager :=
  match pyGet m.sessions sid with
  | none => (.error (.sessionNotFound sid), m)
  | some st =>
    if st.terminated then (.error .sessionTerminated, m)
    else if st.max_rounds ≤ st.current_round then
      let st' := { st with terminated := true, termination_reason := some "라운드 한도 도달" }
      (.error .roundLimitReached, { m with sessions := pySet m.sessions sid st' })
    else
      let st' := { st with
        current_round := st.current_round + 1,
        rounds := st.rounds ++ [{ round_index := st.current_round + 1 }] }
      (.ok (st.current_round + 1), { m with sessions := pySet m.sessions sid st' })

/-- `ConversationManager._validate_doctor_opinion`: the source only checks
`isinstance(opinion.get("hypotheses", []), list)` and the same for
`diagnostic_tests`; in the typed embedding both fields are lists by
construction, so the check always succeeds.  In particular the validator
imposes no length cap and no non-emptiness requirement. -/
def validate_doctor_opinion (_o : DoctorOpinion) : Except EngineError Unit :=
  .ok ()

/-- `ConversationManager._validate_supervisor_decision`: likewise only
`isinstance(..., list)` checks, always satisfied here. -/
def validate_supervisor_decision (_d : SupervisorDecision) : Except EngineError Unit :=
  .ok ()

/-- Replace the last round of a session (`st.rounds[-1]` is mutated in
place in the source). -/
def setLastRound (st : SessionState) (rr : RoundRecord) : SessionState :=
  { st with rounds := st.rounds.dropLast ++ [rr] }

/-- `ConversationManager.add_doctor_opinion`. -/
def add_doctor_opinion (m : Manager) (sid doctor_id : String) (o : DoctorOpinion) :
    Except EngineError Unit × Manager :=
  match pyGet m.sessions sid with
  | none => (.error (.sessionNotFound sid), m)
  | some st =>
    match st.rounds.getLast? with
    | none => (.error .noOpenRound, m)
    | some rr =>
      match validate_doctor_opinion o with
      | .error e => (.error e, m)
      | .ok _ =>
        let rr' := { rr with doctor_opinions := pySet rr.doctor_opinions doctor_id o }
        (.ok (), { m with sessions := pySet m.sessions sid (setLastRound st rr') })

/-- `ConversationManager.record_supervisor_decision`. -/
def record_supervisor_decision (m : Manager) (sid : String) (d : SupervisorDecision) :
    Except EngineError Unit × Manager :=
  match pyGet m.sessions sid with
  | none => (.error (.sessionNotFound sid), m)
  | some st =>
    match st.rounds.getLast? with
    | none => (.error .noOpenRound, m)
    | some rr =>
      match validate_supervisor_decision d with
      | .error e => (.error e, m)
      | .ok _ =>
        let rr' := { rr with supervisor_decision := some d }
        (.ok (), { m with sessions := pySet m.sessions sid (setLastRound st rr') })

-- ---------- String helpers for the parsing routines ----------
-- (Implemented over the character lists by structural recursion, so that
-- every embedded function evaluates inside the kernel on concrete inputs.)

/-- Python `s.lower()`.  `Char.toLower` folds ASCII letters; the strings
this code normalizes are ASCII or Hangul (which has no case), where this
matches Python's Unicode case fold. -/
def pyLower (s : String) : String :=
  String.mk (s.data.map Char.toLower)

/-- Python `s.strip()`: drop leading and trailing whitespace. -/
def pyStrip (s : String) : String :=
  String.mk (((s.data.dropWhile Char.isWhitespace).reverse.dropWhile
    Char.isWhitespace).reverse)

/-- Character-list test used by `strStarts` and the splitter. -/
def listStarts : List Char → List Char → Bool
  | _, [] => true
  | [], _ :: _ => false
  | c :: cs, p :: ps => c == p && listStarts cs ps

/-- Splitting core: walk the text one character at a time (the fuel is the
text length, so it never runs out), cutting at each non-overlapping
occurrence of the separator. -/
def pySplitFuel (sep : List Char) : Nat → List Char → List Char → List (List Char)
  | _, cur, [] => [cur.reverse]
  | 0, cur, rest => [cur.reverse ++ rest]
  | fuel + 1, cur, c :: cs =>
    if sep ≠ [] ∧ listStarts (c :: cs) sep then
      cur.reverse :: pySplitFuel sep fuel [] ((c :: cs).drop sep.length)
    else
      pySplitFuel sep fuel (c :: cur) cs

/-- Python `s.split(sep)` for a non-empty separator (also the left-to-right
scan of `sep in s`). -/
def pySplit (s sep : String) : List String :=
  (pySplitFuel sep.data s.data.length [] s.data).map (fun l => String.mk l)

/-- Python `sep.join(parts)`. -/
def pyJoin (sep : String) : List String → String
  | [] => ""
  | [x] => x
  | x :: y :: xs => x ++ sep ++ pyJoin sep (y :: xs)

/-- Python `s[:n]`. -/
def pyTake (s : String) (n : Nat) : String :=
  String.mk (s.data.take n)

/-- Python `pat in s` (substring test), for a non-empty pattern. -/
def pyContains (s pat : String) : Bool :=
  2 ≤ (pySplit s pat).length

/-- Python `s.startswith(pre)`, on the underlying character lists. -/
def strStarts (s pre : String) : Bool :=
  listStarts s.data pre.data

/-- Python `s.lstrip(chars)`: drop leading characters belonging to `cs`. -/
def lstripChars (cs : List Char) (s : String) : String :=
  String.mk (s.data.dropWhile (fun c => cs.contains c))

/-- Python `s.split(sep, 1)`: split on the first occurrence only. -/
def pySplit1 (s sep : String) : List String :=
  match pySplit s sep with
  | [] => [s]
  | x :: rest => if rest = [] then [x] else [x, pyJoin sep rest]

-- ---------- Consensus detection ----------

/-- Python truthiness of `d.get("termination_reason")`: `None` and the empty
string are falsy. -/
def pyTruthyOptStr : Option String → Bool
  | none => false
  | some s => s ≠ ""

/-- `s.lower().strip()` as used to normalize hypothesis/test strings.  Lean's
`toLower` folds ASCII letters; the deliberation strings are ASCII or Hangul
(which has no case), so this matches Python's Unicode case fold there. -/
def pyNormalize (s : String) : String := pyStrip (pyLower s)

/-- Number of occurrences of `s` in `l` (the value
`hypothesis_counts[normalized]` reaches in the source). -/
def countOcc (l : List String) (s : String) : Nat :=
  (l.filter (fun x => x == s)).length

/-- `ConversationManager._check_doctor_consensus`: concatenates every
hypothesis and every test over all opinions of the round, normalizes them,
and asks for some normalized hypothesis with total occurrence count ≥ 2 and
likewise some normalized test.  Note the counts are occurrence counts over
the concatenation, not counts of distinct doctors. -/
def check_doctor_consensus (rr : RoundRecord) : Bool :=
  let opinions := rr.doctor_opinions.map (fun kv => kv.2)
  if opinions.length < 3 then false
  else
    let all_hypotheses := (opinions.map (fun o => o.hypotheses)).flatten
    let all_tests := (opinions.map (fun o => o.diagnostic_tests)).flatten
    let nh := all_hypotheses.map pyNormalize
    let nt := all_tests.map pyNormalize
    let hypothesis_consensus := nh.any (fun s => 2 ≤ countOcc nh s)
    let test_consensus := nt.any (fun s => 2 ≤ countOcc nt s)
    hypothesis_consensus && test_consensus

/-- `ConversationManager.reached_consensus`.  `if not d` is modelled as
absence of the recorded decision: every decision the repository constructs
populates all four keys, so a recorded decision dict is never empty/falsy. -/
def reached_consensus (m : Manager) (sid : String) : Except EngineError Bool :=
  match pyGet m.sessions sid with
  | none => .error (.sessionNotFound sid)
  | some st =>
    match st.rounds.getLast? with
    | none => .error .noOpenRound
    | some rr =>
      match rr.supervisor_decision with
      | none => .ok false
      | some d =>
        if pyTruthyOptStr d.termination_reason then .ok true
        else .ok (check_doctor_consensus rr)

/-- Predicate written from the specification's words (for comparison with
`check_doctor_consensus`): at least one normalized hypothesis string and at
least one normalized test string each appear in the Opinions of two or more
DISTINCT experts of the round. -/
def specOverlapConsensus (rr : RoundRecord) : Bool :=
  let entries := rr.doctor_opinions
  let sharedHyp := entries.any (fun e1 => entries.any (fun e2 =>
    e1.1 != e2.1 &&
      (e1.2.hypotheses.map pyNormalize).any
        (fun h => (e2.2.hypotheses.map pyNormalize).contains h)))
  let sharedTest := entries.any (fun e1 => entries.any (fun e2 =>
    e1.1 != e2.1 &&
      (e1.2.diagnostic_tests.map pyNormalize).any
        (fun t => (e2.2.diagnostic_tests.map pyNormalize).contains t)))
  sharedHyp && sharedTest

-- ---------- Redaction ----------

/-- `ConversationManager.redact_for_log`: copies the payload
(`dict(payload)`) and removes the `"free_text"` key; the argument dict is
not mutated (the embedding is pure, mirroring that the source works on the
copy only). -/
def redact_for_log {α : Type} (payload : PyDict α) : PyDict α :=
  payload.filter (fun kv => kv.1 != "free_text")

-- ---------- DoctorAgent response pipeline (doctor_agent.py) ----------

/-- Section marker state of `DoctorAgent._parse_doctor_response`. -/
inductive DocSection
  | hypotheses
  | tests
  | critique
  deriving Repr, DecidableEq

/-- Accumulator of the line loop in `_parse_doctor_response`. -/
structure DocParseAcc where
  sec : Option DocSection := none
  hyps : List String := []
  tests : List String := []
  deriving Repr, DecidableEq

/-- Characters stripped from list items in `_parse_doctor_response`
(`line.lstrip('-*•0123456789. ')`). -/
def docItemStripChars : List Char :=
  ['-', '*', '•', '0', '1', '2', '3', '4', '5', '6', '7', '8', '9', '.', ' ']

/-- First char of the line is a bullet (`line.startswith(('-', '*', '•'))`). -/
def docBulletStart (line : String) : Bool :=
  match line.data with
  | [] => false
  | c :: _ => c == '-' || c == '*' || c == '•'

/-- `len(line) > 2 and line[1] == '.'`. -/
def docNumberedStart (line : String) : Bool :=
  decide (2 < line.length) && (line.data.get? 1 == some '.')

/-- One iteration of the keyword loop in `_parse_doctor_response`: the
section marker is updated first, then bullet/numbered lines are collected
into the section that is now current. -/
def doc_parse_step (acc : DocParseAcc) (line : String) : DocParseAcc :=
  let line_lower := pyLower line
  let sec :=
    if ["가설", "진단", "후보", "가능성"].any (fun kw => pyContains line_lower kw) then
      some DocSection.hypotheses
    else if ["검사", "진단검사", "추가검사"].any (fun kw => pyContains line_lower kw) then
      some DocSection.tests
    else if ["동료", "의견", "비판", "평가"].any (fun kw => pyContains line_lower kw) then
      some DocSection.critique
    else acc.sec
  if docBulletStart line || docNumberedStart line then
    let item := pyStrip (lstripChars docItemStripChars line)
    if sec = some DocSection.hypotheses ∧ item ≠ "" then
      { sec := sec, hyps := acc.hyps ++ [item], tests := acc.tests }
    else if sec = some DocSection.tests ∧ item ≠ "" then
      { sec := sec, hyps := acc.hyps, tests := acc.tests ++ [item] }
    else
      { acc with sec := sec }
  else
    { acc with sec := sec }

/-- `DoctorAgent._parse_doctor_response`.  The `specialty` is `"일반의"` for
every doctor in the panel; the `try/except` wrapper of the source cannot
fire in the embedding (all operations are total), so only the normal path
is modelled. -/
def parse_doctor_response (specialty response : String) (_round_number : Nat)
    (is_update : Bool) : DoctorOpinion :=
  let lines := ((pySplit response "\n").map pyStrip).filter (fun l => l != "")
  let acc := lines.foldl doc_parse_step {}
  let critique :=
    if is_update then
      pyJoin " "
        (lines.filter (fun l =>
          ["동료", "의견", "평가", "비판", "분석"].any (fun kw => pyContains l kw)))
    else ""
  let hyps :=
    if acc.hyps = [] then [specialty ++ " 관점에서의 종합적 검토 필요"] else acc.hyps
  let tests :=
    if acc.tests = [] then ["추가 전문의 상담", "종합적 진단 검사"] else acc.tests
  { hypotheses := hyps.take 5,
    diagnostic_tests := tests.take 5,
    reasoning := response,
    critique_of_peers := critique }

/-- The fallback Opinion built in the `except` branch of
`DoctorAgent.provide_opinion`. -/
def doctor_fallback_opinion (err : String) : DoctorOpinion :=
  { hypotheses := ["추가 검토 필요"],
    diagnostic_tests := ["전문의 상담"],
    reasoning := "의견 생성 중 오류 발생: " ++ err,
    critique_of_peers := "" }

/-- The fallback Opinion built in the `except` branch of
`SupervisorAgent._collect_doctor_opinions` (same lists, a different
reasoning text). -/
def collect_fallback_opinion (err : String) : DoctorOpinion :=
  { hypotheses := ["추가 검토 필요"],
    diagnostic_tests := ["전문의 상담"],
    reasoning := "의견 수집 중 오류 발생: " ++ err,
    critique_of_peers := "" }

/-- The fallback Opinion of `_parse_doctor_response`'s `except` branch. -/
def doctor_parse_error_opinion (specialty err : String) : DoctorOpinion :=
  { hypotheses := [specialty ++ " 관점 분석 중 오류"],
    diagnostic_tests := ["전문의 재상담"],
    reasoning := "응답 파싱 중 오류 발생: " ++ err,
    critique_of_peers := "" }

-- ---------- Supervisor response pipeline (supervisor_agent.py) ----------

/-- Outcome of one `llm.invoke` call: either a message with `content` and
the `finish_reason` of its `response_metadata`, or a raised exception with
its message. -/
inductive LLMOutcome where
  | ok (content : String) (finish_reason : Option String)
  | raise (msg : String)
  deriving Repr, DecidableEq

/-- `SupervisorAgent._ensure_valid_response`: keeps a response with truthy
content; on empty content with `finish_reason == "length"` it issues exactly
one continuation call (whose outcome is the `continuation` oracle argument)
and otherwise raises.  Returns the surviving content or the raised message,
together with the number of continuation calls issued. -/
def ensure_valid_response (content : String) (finish_reason : Option String)
    (continuation : LLMOutcome) : Except String String × Nat :=
  if content ≠ "" then (.ok content, 0)
  else if finish_reason = some "length" then
    match continuation with
    | .raise msg => (.error msg, 1)
    | .ok c2 _ =>
      if c2 ≠ "" then (.ok c2, 1)
      else (.error "Supervisor LLM returned empty content after retry.", 1)
  else (.error "Supervisor LLM returned empty content without truncation metadata.", 0)

/-- Section state of `SupervisorAgent._parse_supervisor_response`. -/
inductive SupSection
  | hypothesis
  | tests
  | consensus
  | analysis
  | safety
  deriving Repr, DecidableEq

/-- Subsection state of `_parse_supervisor_response`. -/
inductive SupSubsection
  | main_candidates
  | immediately_needed
  | rationale_sub
  deriving Repr, DecidableEq

/-- Accumulator of the line loop in `_parse_supervisor_response`. -/
structure SupParseAcc where
  sec : Option SupSection := none
  sub : Option SupSubsection := none
  hyps : List String := []
  tests : List String := []
  rationale : String := ""
  termination_reason : Option String := none
  deriving Repr, DecidableEq

/-- One iteration of the section loop in `_parse_supervisor_response`. -/
def sup_parse_step (acc : SupParseAcc) (line : String) : SupParseAcc :=
  let line_stripped := pyStrip line
  if pyContains line "**Integrated Hypothesis**" || pyContains line "**통합 가설**" then
    { acc with sec := some SupSection.hypothesis, sub := none }
  else if pyContains line "**Priority Tests**" || pyContains line "**우선 검사**" then
    { acc with sec := some SupSection.tests, sub := none }
  else if pyContains line "**Consensus Status**" || pyContains line "**합의 상태**" then
    { acc with sec := some SupSection.consensus, sub := none }
  else if pyContains line "**Consensus Analysis**" || pyContains line "**합의 분석**" then
    { acc with sec := some SupSection.analysis, sub := none }
  else if pyContains line "**Safety Considerations**" || pyContains line "**안전 고려사항**" then
    { acc with sec := some SupSection.safety, sub := none }
  else if acc.sec = some SupSection.hypothesis then
    if pyContains line "Main Candidates:" || pyContains line "주요 후보:" ||
        pyContains line "- Main Candidates:" then
      { acc with sub := some SupSubsection.main_candidates }
    else if strStarts line_stripped "-" ∧ acc.sub = some SupSubsection.main_candidates then
      let hypothesis := pyStrip (lstripChars ['-', ' '] line_stripped)
      if hypothesis ≠ "" ∧ 3 < hypothesis.length then
        { acc with hyps := acc.hyps ++ [hypothesis] }
      else acc
    else acc
  else if acc.sec = some SupSection.tests then
    if pyContains line "Immediately Needed:" || pyContains line "즉시 필요:" ||
        pyContains line "- Immediately Needed:" then
      { acc with sub := some SupSubsection.immediately_needed }
    else if strStarts line_stripped "-" ∧ acc.sub = some SupSubsection.immediately_needed then
      let test := pyStrip (lstripChars ['-', ' '] line_stripped)
      if test ≠ "" ∧ 3 < test.length then
        { acc with tests := acc.tests ++ [test] }
      else acc
    else acc
  else if acc.sec = some SupSection.consensus then
    let acc1 :=
      if pyContains line "Consensus Rationale:" || pyContains line "합의 근거:" ||
          pyContains line "- Consensus Rationale:" then
        let acc' := { acc with sub := some SupSubsection.rationale_sub }
        match pySplit1 line ":" with
        | [_, second] =>
          let rationale_text := pyStrip second
          if rationale_text ≠ "" then { acc' with rationale := rationale_text } else acc'
        | _ => acc'
      else if acc.sub = some SupSubsection.rationale_sub ∧ line_stripped ≠ "" then
        if ¬ strStarts line_stripped "-" ∧ ¬ strStarts line_stripped "**" then
          { acc with rationale := acc.rationale ++ " " ++ line_stripped }
        else acc
      else acc
    if pyContains line "Clear consensus" || pyContains line "Complete consensus" ||
        pyContains line "명확한 합의" || pyContains line "완전한 합의" ||
        pyContains line "Consensus Reached: Yes" || pyContains line "합의 도달: 예" then
      { acc1 with termination_reason := some "Doctor 패널 합의 도달" }
    else acc1
  else acc

/-- `SupervisorAgent._create_fallback_decision`. -/
def create_fallback_decision (round_number : Nat) (reason : String) : SupervisorDecision :=
  { consensus_hypotheses := ["라운드 " ++ toString round_number ++ " 분석 완료"],
    prioritized_tests := ["전문의 최종 상담"],
    rationale := "응답 처리 중 문제 발생: " ++ reason,
    termination_reason := none }

/-- `SupervisorAgent._parse_supervisor_response`.  The `try/except` wrapper
cannot fire in the embedding (all operations are total), so only the normal
path and the empty-response guard are modelled. -/
def parse_supervisor_response (response : String) (round_number : Nat) :
    SupervisorDecision :=
  if response = "" ∨ pyStrip response = "" then
    create_fallback_decision round_number "빈 응답"
  else
    let lines := pySplit (pyStrip response) "\n"
    let acc := lines.foldl sup_parse_step {}
    let hyps :=
      if acc.hyps = [] then ["라운드 " ++ toString round_number ++ " 검토 결과"]
      else acc.hyps
    let tests :=
      if acc.tests = [] then ["추가 전문의 상담", "종합적 재검토"]
      else acc.tests
    let rationale :=
      if acc.rationale = "" ∨ (pyStrip acc.rationale).length < 10 then pyTake response 500
      else acc.rationale
    { consensus_hypotheses := hyps,
      prioritized_tests := tests,
      rationale := pyStrip rationale,
      termination_reason := acc.termination_reason }

/-- The fallback Decision built in `_make_supervisor_decision`'s `except`
branch, whose rationale names the underlying error message. -/
def supervisor_fallback_decision (err : String) : SupervisorDecision :=
  { consensus_hypotheses := ["추가 검토 필요"],
    prioritized_tests := ["전문의 상담"],
    rationale := "결정 생성 중 오류 발생: " ++ err,
    termination_reason := none }

/-- `_make_supervisor_decision`'s `except` branch: record the fallback
Decision; if even that recording fails the error is propagated. -/
def supervisor_decision_fallback (m : Manager) (sid : String) (err : String) (n : Nat) :
    Except EngineError SupervisorDecision × Manager × Nat :=
  match record_supervisor_decision m sid (supervisor_fallback_decision err) with
  | (.ok _, m') => (.ok (supervisor_fallback_decision err), m', n)
  | (.error e, m') => (.error e, m', n)

/-- The generation part of `_make_supervisor_decision`'s `try` block: the
initial `llm.invoke` (the `initial` oracle), then `_ensure_valid_response`
(which may issue the single continuation call, the `continuation` oracle).
Returns the surviving content or the raised message, and the number of
continuation calls issued. -/
def supervisor_step (initial continuation : LLMOutcome) : Except String String × Nat :=
  match initial with
  | .raise msg => (.error msg, 0)
  | .ok content finish_reason => ensure_valid_response content finish_reason continuation

/-- `SupervisorAgent._make_supervisor_decision`: generate (with recovery),
parse and record; any raise along the way is caught and replaced by the
recorded fallback Decision.  The third component counts the continuation
calls issued to the backend. -/
def make_supervisor_decision (m : Manager) (sid : String) (round_number : Nat)
    (initial continuation : LLMOutcome) :
    Except EngineError SupervisorDecision × Manager × Nat :=
  match supervisor_step initial continuation with
  | (.ok content, n) =>
    let decision := parse_supervisor_response content round_number
    match record_supervisor_decision m sid decision with
    | (.ok _, m') => (.ok decision, m', n)
    | (.error e, m') => supervisor_decision_fallback m' sid e.message n
  | (.error msg, n) => supervisor_decision_fallback m sid msg n

/-- The Decision `_make_supervisor_decision` ends up recording: the parsed
decision when generation survives recovery, the fallback otherwise. -/
def supervisor_outcome (round_number : Nat) (initial continuation : LLMOutcome) :
    SupervisorDecision :=
  match (supervisor_step initial continuation).1 with
  | .ok content => parse_supervisor_response content round_number
  | .error msg => supervisor_fallback_decision msg

-- ---------- Round coordination and the deliberation loop ----------

/-- Outcome of one `doctor.provide_opinion(...)` call as seen by
`_collect_doctor_opinions`: a returned Opinion, or a raised exception with
its message. -/
abbrev DoctorResult := Except String DoctorOpinion

/-- The loop body of `SupervisorAgent._collect_doctor_opinions`: doctor `i`
(1-based) is queried; on a raise — or on a failure of the in-`try`
`add_doctor_opinion` — the fallback Opinion is recorded instead, and the
remaining doctors are still processed.  A failure of the fallback's own
`add_doctor_opinion` (it sits outside the `try`) propagates. -/
def collect_go (m : Manager) (sid : String) (acc : PyDict DoctorOpinion) (i : Nat) :
    List DoctorResult → Except EngineError (PyDict DoctorOpinion) × Manager
  | [] => (.ok acc, m)
  | r :: rest =>
    let doctor_id := "doctor_" ++ toString i
    match r with
    | .ok o =>
      match add_doctor_opinion m sid doctor_id o with
      | (.ok _, m') => collect_go m' sid (pySet acc doctor_id o) (i + 1) rest
      | (.error e, m') =>
        let fb := collect_fallback_opinion e.message
        match add_doctor_opinion m' sid doctor_id fb with
        | (.ok _, m'') => collect_go m'' sid (pySet acc doctor_id fb) (i + 1) rest
        | (.error e', m'') => (.error e', m'')
    | .error msg =>
      let fb := collect_fallback_opinion msg
      match add_doctor_opinion m sid doctor_id fb with
      | (.ok _, m') => collect_go m' sid (pySet acc doctor_id fb) (i + 1) rest
      | (.error e, m') => (.error e, m')

/-- `SupervisorAgent._collect_doctor_opinions` over the per-doctor call
outcomes of the round (doctor identifiers are `doctor_1`, `doctor_2`, …). -/
def collect_doctor_opinions (m : Manager) (sid : String) (results : List DoctorResult) :
    Except EngineError (PyDict DoctorOpinion) × Manager :=
  collect_go m sid [] 1 results

/-- The generation-backend oracle for a deliberation run: the outcome of the
supervisor's initial `llm.invoke` and of its (possible) continuation call,
per round. -/
structure DelibEnv where
  llm_initial : Nat → LLMOutcome
  llm_continuation : Nat → LLMOutcome

/-- The dictionary `SupervisorAgent._format_deliberation_result` returns
(`success = false` models the error dictionary of the source). -/
structure DelibResult where
  success : Bool
  total_rounds : Nat
  termination_reason : Option String
  final_decision : Option SupervisorDecision
  consensus_reached : Bool
  deriving Repr, DecidableEq

/-- `SupervisorAgent._format_deliberation_result`. -/
def format_deliberation_result (m : Manager) (sid : String) : DelibResult :=
  match pyGet m.sessions sid with
  | none =>
    { success := false, total_rounds := 0, termination_reason := none,
      final_decision := none, consensus_reached := false }
  | some st =>
    if st.rounds = [] then
      { success := false, total_rounds := 0, termination_reason := none,
        final_decision := none, consensus_reached := false }
    else
      { success := true,
        total_rounds := st.rounds.length,
        termination_reason := st.termination_reason,
        final_decision := (st.rounds.getLast?).bind (fun rr => rr.supervisor_decision),
        consensus_reached := st.termination_reason == some "합의 도달" }

/-- The `while` loop of `SupervisorAgent.start_deliberation`, with fuel (the
caller passes the round budget, which bounds the number of iterations).  The
loop stops when the session is terminated or the round counter has reached
`max_rounds`; the commented-out consensus early exit of the source is not
present, so `reached_consensus` is never consulted.  A raise inside the body
is returned as an error for the caller's `except` block. -/
def delib_loop (env : DelibEnv) (doctors : List (Nat → DoctorResult)) (sid : String) :
    Nat → Manager → Except EngineError Unit × Manager
  | 0, m => (.ok (), m)
  | fuel + 1, m =>
    match pyGet m.sessions sid with
    | none => (.error (.sessionNotFound sid), m)
    | some st =>
      if st.terminated = true ∨ st.max_rounds ≤ st.current_round then (.ok (), m)
      else
        match begin_round m sid with
        | (.error e, m1) => (.error e, m1)
        | (.ok r, m1) =>
          match collect_doctor_opinions m1 sid (doctors.map (fun f => f r)) with
          | (.error e, m2) => (.error e, m2)
          | (.ok _, m2) =>
            match make_supervisor_decision m2 sid r (env.llm_initial r) (env.llm_continuation r) with
            | (.error e, m3, _) => (.error e, m3)
            | (.ok _, m3, _) => delib_loop env doctors sid fuel m3

/-- `SupervisorAgent.start_deliberation`: requires exactly three doctors,
starts (or re-attaches to) the session, runs the round loop to the budget,
and — when the loop finished without a raise and the session is not yet
terminated — ends the session with the round-budget completion reason and
formats the result.  A raise inside the loop ends the session with an
`오류: …` reason and propagates. -/
def start_deliberation (env : DelibEnv) (doctors : List (Nat → DoctorResult))
    (m : Manager) (sid : String) (ctx : CaseContext) :
    Except EngineError DelibResult × Manager :=
  if doctors.length ≠ 3 then (.error .panelSizeMismatch, m)
  else
    let m1 := (start_session m sid ctx).2
    match delib_loop env doctors sid m.max_rounds m1 with
    | (.error e, m2) => (.error e, end_session m2 sid (some ("오류: " ++ e.message)))
    | (.ok _, m2) =>
      let m3 :=
        match pyGet m2.sessions sid with
        | some st =>
          if st.terminated then m2
          else end_session m2 sid (some (toString m.max_rounds ++ "라운드 완료"))
        | none => m2
      (.ok (format_deliberation_result m3 sid), m3)

-- ---------- LangGraph orchestrator routing (multi_agent_orchestrator.py) ----------

/-- The fields of a `shared_state.SupervisorDecision` consulted by the
orchestrator's routing (`latest_decision.get("consensus_reached", False)`
and the round stamp written by `StateManager.add_supervisor_decision`). -/
structure OrchDecision where
  consensus_reached : Bool
  round_number : Nat
  deriving Repr, DecidableEq, Inhabited

/-- The fields of `SharedMedicalState` consulted by the consultation loop. -/
structure OrchState where
  current_round : Nat
  max_rounds : Nat
  supervisor_decisions : List OrchDecision
  error_messages : List String
  deriving Repr, DecidableEq

/-- `MultiAgentOrchestrator._should_continue_consultation`: with no recorded
supervisor decision the loop always continues; otherwise it finalizes when
the latest decision reports consensus or the round budget is exhausted. -/
def should_continue_consultation (st : OrchState) : String :=
  if st.supervisor_decisions = [] then "continue"
  else
    match st.supervisor_decisions.getLast? with
    | none => "continue"
    | some latest_decision =>
      if latest_decision.consensus_reached = true ∨ st.max_rounds ≤ st.current_round then
        "finalize"
      else "continue"

/-- `MultiAgentOrchestrator._supervisor_consensus_node`: on a successful
evaluation the decision (stamped with the current round, as
`StateManager.add_supervisor_decision` does) is appended; when the
evaluation raises, only an error message is appended and no decision is
recorded. -/
def supervisor_consensus_node (evaluation : Except String OrchDecision)
    (st : OrchState) : OrchState :=
  match evaluation with
  | .ok d =>
    { st with supervisor_decisions :=
        st.supervisor_decisions ++ [{ d with round_number := st.current_round }] }
  | .error msg =>
    { st with error_messages := st.error_messages ++ ["Supervisor 평가 실패: " ++ msg] }

-- ---------- Engine operation sequences (for the session invariants) ----------

/-- One call against the ConversationManager's mutating API. -/
inductive EngineOp where
  | startSession (sid : String) (ctx : CaseContext)
  | beginRound (sid : String)
  | addOpinion (sid doctor_id : String) (o : DoctorOpinion)
  | recordDecision (sid : String) (d : SupervisorDecision)
  | endSession (sid : String) (reason : Option String)

/-- Execute one operation, keeping whatever state it leaves behind (the
result or raised exception is discarded). -/
def execOp (m : Manager) : EngineOp → Manager
  | .startSession sid ctx => (start_session m sid ctx).2
  | .beginRound sid => (begin_round m sid).2
  | .addOpinion sid doctor_id o => (add_doctor_opinion m sid doctor_id o).2
  | .recordDecision sid d => (record_supervisor_decision m sid d).2
  | .endSession sid reason => end_session m sid reason

/-- Execute a sequence of operations. -/
def execOps (m : Manager) (ops : List EngineOp) : Manager :=
  ops.foldl execOp m

/-- Iterate `begin_round` `n` times, collecting each call's outcome. -/
def beginRoundTimes (m : Manager) (sid : String) :
    Nat → List (Except EngineError Nat) × Manager
  | 0 => ([], m)
  | n + 1 =>
    let r := begin_round m sid
    let rest := beginRoundTimes r.2 sid n
    (r.1 :: rest.1, rest.2)

-- ---------- Statement-side helpers and concrete fixtures ----------

/-- Store `st` under `sid` (used to phrase the lemmas below). -/
def withSession (m : Manager) (sid : String) (st : SessionState) : Manager :=
  { m with sessions := pySet m.sessions sid st }

/-- Record an opinion into a round (used to phrase the lemmas below). -/
def withOpinion (rr : RoundRecord) (doctor_id : String) (o : DoctorOpinion) : RoundRecord :=
  { rr with doctor_opinions := pySet rr.doctor_opinions doctor_id o }

/-- Record a decision into a round (used to phrase the lemmas below). -/
def withDecision (rr : RoundRecord) (d : SupervisorDecision) : RoundRecord :=
  { rr with supervisor_decision := some d }

/-- The session state `begin_round` leaves behind on its success branch
(used to phrase the lemmas below). -/
def afterBeginRound (st : SessionState) : SessionState :=
  { st with current_round := st.current_round + 1,
            rounds := st.rounds ++ [{ round_index := st.current_round + 1 }] }

/-- The Opinion that `_collect_doctor_opinions` ends up recording for one
doctor: the returned Opinion on success, the fallback on a raise. -/
def resolve_doctor_result : DoctorResult → DoctorOpinion
  | .ok o => o
  | .error msg => collect_fallback_opinion msg

/-- The dictionary updates `collect_go` performs, starting from doctor `i`. -/
def applyResults (dict : PyDict DoctorOpinion) (i : Nat) :
    List DoctorResult → PyDict DoctorOpinion
  | [] => dict
  | r :: rest =>
    applyResults (pySet dict ("doctor_" ++ toString i) (resolve_doctor_result r)) (i + 1) rest

/-- The session state `start_session` creates for an unregistered
identifier (used to phrase the lemmas below). -/
def freshSession (sid : String) (ctx : CaseContext) (R : Nat) : SessionState :=
  { session_id := sid, context := ctx, max_rounds := R }

/-- An empty case context used by the concrete fixtures. -/
def ctx0 : CaseContext := {}

/-- A session with one open (undecided) round. -/
def stOpen : SessionState :=
  { session_id := "s", context := ctx0, current_round := 1, max_rounds := 7,
    rounds := [{ round_index := 1 }], terminated := false, termination_reason := none }

/-- A manager holding one session `"s"` with one open (undecided) round. -/
def mOpen : Manager :=
  { max_rounds := 7, sessions := [("s", stOpen)] }

/-- An arbitrary well-formed opinion used by the concrete witnesses. -/
def opinionA : DoctorOpinion :=
  { hypotheses := ["pneumonia"], diagnostic_tests := ["chest x-ray"],
    reasoning := "cough and fever", critique_of_peers := "" }

/-- A backend oracle used by the concrete witnesses: the initial call always
returns non-empty content, the continuation is never consulted. -/
def envW : DelibEnv :=
  { llm_initial := fun _ => .ok "no consensus yet" none,
    llm_continuation := fun _ => .ok "" none }

/-- A doctor panel used by the concrete witnesses: the second doctor's call
always raises. -/
def doctorsW : List (Nat → DoctorResult) :=
  [fun _ => .ok opinionA, fun _ => .error "boom", fun _ => .ok opinionA]

/-- An orchestrator state past its round budget with no recorded supervisor
decision. -/
def orchStateW : OrchState :=
  { current_round := 9, max_rounds := 3, supervisor_decisions := [], error_messages := [] }

/-- The manager obtained by starting session `"s"` on a fresh manager and
opening round 1 (which then has no recorded Decision). -/
def mUndecided : Manager :=
  (begin_round (start_session { max_rounds := 7, sessions := [] } "s" ctx0).2 "s").2

/-- A round in which doctor_1 lists the same normalized hypothesis (and the
same normalized test) twice, while the three doctors' hypothesis sets and
test sets are pairwise disjoint. -/
def c1_round : RoundRecord :=
  { round_index := 1,
    doctor_opinions :=
      [("doctor_1",
        { hypotheses := ["Flu", "flu "], diagnostic_tests := ["Chest X-ray", "chest x-ray "],
          reasoning := "viral syndrome", critique_of_peers := "" }),
       ("doctor_2",
        { hypotheses := ["common cold"], diagnostic_tests := ["mri"],
          reasoning := "", critique_of_peers := "" }),
       ("doctor_3",
        { hypotheses := ["covid"], diagnostic_tests := ["ct"],
          reasoning := "", critique_of_peers := "" })],
    supervisor_decision := some
      { consensus_hypotheses := ["flu"], prioritized_tests := ["chest x-ray"],
        rationale := "round 1 analysis", termination_reason := none } }

/-- A manager holding session `"s"` whose current round is `c1_round`. -/
def c1_manager : Manager :=
  { max_rounds := 7,
    sessions := [("s",
      { session_id := "s", context := ctx0, current_round := 1, max_rounds := 7,
        rounds := [c1_round], terminated := false, termination_reason := none })] }

/-- An opinion violating both stated storage invariants: six hypotheses and
an empty test list. -/
def oversized_opinion : DoctorOpinion :=
  { hypotheses := ["a1", "a2", "a3", "a4", "a5", "a6"],
    diagnostic_tests := [],
    reasoning := "direct caller payload",
    critique_of_peers := "" }

-- ---------- Helper lemmas ----------

theorem pyGet_pySet_self {α : Type} (d : PyDict α) (k : String) (v : α) :
    pyGet (pySet d k v) k = some v := by
  induction d with
  | nil => simp [pySet, pyGet]
  | cons hd tl ih =>
    obtain ⟨k', v'⟩ := hd
    by_cases h : k' = k
    · simp [pySet, pyGet, h]
    · simp [pySet, pyGet, h, ih]

theorem pyGet_pySet_ne {α : Type} (d : PyDict α) (k k' : String) (v : α)
    (h : k' ≠ k) : pyGet (pySet d k v) k' = pyGet d k' := by
  induction d with
  | nil => simp [pySet, pyGet, Ne.symm h]
  | cons hd tl ih =>
    obtain ⟨k₀, v₀⟩ := hd
    by_cases hk : k₀ = k
    · subst hk
      simp [pySet, pyGet, Ne.symm h]
    · simp only [pySet, if_neg hk]
      by_cases hk' : k₀ = k'
      · simp [pyGet, hk']
      · simp [pyGet, hk', ih]

theorem setLastRound_getLast (st : SessionState) (rr : RoundRecord) :
    (setLastRound st rr).rounds.getLast? = some rr := by
  simp [setLastRound]

theorem setLastRound_length (st : SessionState) (rr : RoundRecord)
    (h : st.rounds ≠ []) :
    (setLastRound st rr).rounds.length = st.rounds.length := by
  have hpos : 0 < st.rounds.length := List.length_pos.mpr h
  simp [setLastRound]
  omega

theorem add_doctor_opinion_eq (m : Manager) (sid doctor_id : String) (o : DoctorOpinion)
    (st : SessionState) (rr : RoundRecord)
    (h1 : pyGet m.sessions sid = some st) (h2 : st.rounds.getLast? = some rr) :
    add_doctor_opinion m sid doctor_id o =
      (.ok (), withSession m sid
        (setLastRound st { rr with doctor_opinions := pySet rr.doctor_opinions doctor_id o })) := by
  simp [add_doctor_opinion, h1, h2, validate_doctor_opinion, withSession]

theorem record_supervisor_decision_eq (m : Manager) (sid : String) (d : SupervisorDecision)
    (st : SessionState) (rr : RoundRecord)
    (h1 : pyGet m.sessions sid = some st) (h2 : st.rounds.getLast? = some rr) :
    record_supervisor_decision m sid d =
      (.ok (), withSession m sid
        (setLastRound st { rr with supervisor_decision := some d })) := by
  simp [record_supervisor_decision, h1, h2, validate_supervisor_decision, withSession]

theorem start_session_fresh (m : Manager) (sid : String) (ctx : CaseContext)
    (h : pyGet m.sessions sid = none) :
    start_session m sid ctx =
      (freshSession sid ctx m.max_rounds, withSession m sid (freshSession sid ctx m.max_rounds)) := by
  simp [start_session, h, freshSession, withSession]

theorem begin_round_eq (m : Manager) (sid : String) (st : SessionState)
    (h1 : pyGet m.sessions sid = some st) (h2 : st.terminated = false)
    (h3 : st.current_round < st.max_rounds) :
    begin_round m sid =
      (.ok (st.current_round + 1), withSession m sid (afterBeginRound st)) := by
  simp [begin_round, h1, h2, Nat.not_le.mpr h3, withSession, afterBeginRound]

theorem collect_go_cons (m : Manager) (sid : String) (acc : PyDict DoctorOpinion) (i : Nat)
    (r : DoctorResult) (rest : List DoctorResult)
    (st : SessionState) (rr : RoundRecord)
    (h1 : pyGet m.sessions sid = some st) (h2 : st.rounds.getLast? = some rr) :
    collect_go m sid acc i (r :: rest) =
      collect_go
        (withSession m sid (setLastRound st
          (withOpinion rr ("doctor_" ++ toString i) (resolve_doctor_result r))))
        sid (pySet acc ("doctor_" ++ toString i) (resolve_doctor_result r)) (i + 1) rest := by
  cases r with
  | ok o =>
    rw [collect_go, add_doctor_opinion_eq m sid _ o st rr h1 h2]
    simp [resolve_doctor_result, withOpinion]
  | error msg =>
    rw [collect_go, add_doctor_opinion_eq m sid _ (collect_fallback_opinion msg) st rr h1 h2]
    simp [resolve_doctor_result, withOpinion]

theorem collect_go_run (sid : String) (results : List DoctorResult) :
    ∀ (m : Manager) (acc : PyDict DoctorOpinion) (i : Nat)
      (st : SessionState) (rr : RoundRecord),
      pyGet m.sessions sid = some st → st.rounds.getLast? = some rr →
      ∃ m' st' rr',
        collect_go m sid acc i results = (.ok (applyResults acc i results), m') ∧
        pyGet m'.sessions sid = some st' ∧
        st'.rounds.getLast? = some rr' ∧
        rr'.doctor_opinions = applyResults rr.doctor_opinions i results ∧
        st'.current_round = st.current_round ∧
        st'.max_rounds = st.max_rounds ∧
        st'.terminated = st.terminated ∧
        st'.termination_reason = st.termination_reason ∧
        st'.rounds.length = st.rounds.length := by
  induction results with
  | nil =>
    intro m acc i st rr h1 h2
    exact ⟨m, st, rr, by simp [collect_go, applyResults], h1, h2, rfl, rfl, rfl, rfl, rfl, rfl⟩
  | cons r rest ih =>
    intro m acc i st rr h1 h2
    have hne : st.rounds ≠ [] := by
      intro hnil
      rw [hnil] at h2
      simp at h2
    rw [collect_go_cons m sid acc i r rest st rr h1 h2]
    obtain ⟨m', st', rr', hrun, hget, hlast, hdict, hcur, hmax, hterm, hreason, hlen⟩ :=
      ih (withSession m sid (setLastRound st
            (withOpinion rr ("doctor_" ++ toString i) (resolve_doctor_result r))))
        (pySet acc ("doctor_" ++ toString i) (resolve_doctor_result r)) (i + 1)
        (setLastRound st (withOpinion rr ("doctor_" ++ toString i) (resolve_doctor_result r)))
        (withOpinion rr ("doctor_" ++ toString i) (resolve_doctor_result r))
        (by simp [withSession, pyGet_pySet_self]) (setLastRound_getLast _ _)
    refine ⟨m', st', rr', ?_, hget, hlast, ?_, ?_, ?_, ?_, ?_, ?_⟩
    · rw [hrun]
      simp [applyResults]
    · rw [hdict]
      simp [applyResults, withOpinion]
    · rw [hcur]
      simp [setLastRound]
    · rw [hmax]
      simp [setLastRound]
    · rw [hterm]
      simp [setLastRound]
    · rw [hreason]
      simp [setLastRound]
    · rw [hlen, setLastRound_length st _ hne]

theorem supervisor_step_count_le_one (init cont : LLMOutcome) :
    (supervisor_step init cont).2 ≤ 1 := by
  cases init with
  | raise msg => simp [supervisor_step]
  | ok content fr =>
    simp only [supervisor_step, ensure_valid_response]
    by_cases hc : content ≠ ""
    · simp [hc]
    · by_cases hf : fr = some "length"
      · cases cont with
        | raise msg => simp [hc, hf]
        | ok c2 fr2 =>
          by_cases hc2 : c2 ≠ "" <;> simp [hc, hf, hc2]
      · simp [hc, hf]

theorem make_supervisor_decision_count (m : Manager) (sid : String) (round_number : Nat)
    (init cont : LLMOutcome) :
    (make_supervisor_decision m sid round_number init cont).2.2 =
      (supervisor_step init cont).2 := by
  rcases hstep : supervisor_step init cont with ⟨res, n⟩
  cases res with
  | ok c =>
    rcases hrec : record_supervisor_decision m sid (parse_supervisor_response c round_number)
      with ⟨res2, m'⟩
    cases res2 with
    | ok u => simp [make_supervisor_decision, hstep, hrec]
    | error e =>
      rcases hrec2 : record_supervisor_decision m' sid
          (supervisor_fallback_decision e.message) with ⟨res3, m''⟩
      cases res3 <;>
        simp [make_supervisor_decision, hstep, hrec, supervisor_decision_fallback, hrec2]
  | error msg =>
    rcases hrec : record_supervisor_decision m sid (supervisor_fallback_decision msg)
      with ⟨res2, m'⟩
    cases res2 <;>
      simp [make_supervisor_decision, hstep, supervisor_decision_fallback, hrec]

theorem make_supervisor_decision_eq (m : Manager) (sid : String) (round_number : Nat)
    (init cont : LLMOutcome) (st : SessionState) (rr : RoundRecord)
    (h1 : pyGet m.sessions sid = some st) (h2 : st.rounds.getLast? = some rr) :
    make_supervisor_decision m sid round_number init cont =
      (.ok (supervisor_outcome round_number init cont),
       withSession m sid
         (setLastRound st (withDecision rr (supervisor_outcome round_number init cont))),
       (supervisor_step init cont).2) := by
  rcases hstep : supervisor_step init cont with ⟨res, n⟩
  cases res with
  | ok c =>
    simp [make_supervisor_decision, hstep, supervisor_outcome,
      record_supervisor_decision_eq m sid _ st rr h1 h2, withDecision]
  | error msg =>
    simp [make_supervisor_decision, hstep, supervisor_outcome, supervisor_decision_fallback,
      record_supervisor_decision_eq m sid _ st rr h1 h2, withDecision]

theorem delib_loop_run (env : DelibEnv) (doctors : List (Nat → DoctorResult)) (sid : String) :
    ∀ (k : Nat) (m : Manager) (st : SessionState),
      pyGet m.sessions sid = some st →
      st.terminated = false →
      st.max_rounds = st.current_round + k →
      st.rounds.length = st.current_round →
      ∃ m' st',
        delib_loop env doctors sid k m = (.ok (), m') ∧
        pyGet m'.sessions sid = some st' ∧
        st'.terminated = false ∧
        st'.max_rounds = st.max_rounds ∧
        st'.current_round = st.max_rounds ∧
        st'.rounds.length = st.max_rounds ∧
        st'.termination_reason = st.termination_reason := by
  intro k
  induction k with
  | zero =>
    intro m st h1 h2 h3 h4
    exact ⟨m, st, by simp [delib_loop], h1, h2, rfl, by omega, by omega, rfl⟩
  | succ k ih =>
    intro m st h1 h2 h3 h4
    have hlt : st.current_round < st.max_rounds := by omega
    have hnle : ¬ st.max_rounds ≤ st.current_round := Nat.not_le.mpr hlt
    have hbegin := begin_round_eq m sid st h1 h2 hlt
    have h1a : pyGet (withSession m sid (afterBeginRound st)).sessions sid
        = some (afterBeginRound st) := by
      simp [withSession, pyGet_pySet_self]
    have h2a : (afterBeginRound st).rounds.getLast?
        = some { round_index := st.current_round + 1 } := by
      simp [afterBeginRound]
    obtain ⟨m₂, st₂, rr₂, hcrun, hcget, hclast, hcdict, hccur, hcmax, hcterm, hcreason, hclen⟩ :=
      collect_go_run sid (doctors.map (fun f => f (st.current_round + 1)))
        (withSession m sid (afterBeginRound st)) [] 1 (afterBeginRound st)
        { round_index := st.current_round + 1 } h1a h2a
    have hne₂ : st₂.rounds ≠ [] := by
      intro hnil
      rw [hnil] at hclast
      simp at hclast
    have hmk := make_supervisor_decision_eq m₂ sid (st.current_round + 1)
      (env.llm_initial (st.current_round + 1)) (env.llm_continuation (st.current_round + 1))
      st₂ rr₂ hcget hclast
    set dec := supervisor_outcome (st.current_round + 1)
      (env.llm_initial (st.current_round + 1)) (env.llm_continuation (st.current_round + 1))
      with hdec
    have h1b : pyGet (withSession m₂ sid (setLastRound st₂ (withDecision rr₂ dec))).sessions sid
        = some (setLastRound st₂ (withDecision rr₂ dec)) := by
      simp [withSession, pyGet_pySet_self]
    obtain ⟨m', st', hrun', hget', hterm', hmax', hcur', hlen', hreason'⟩ :=
      ih (withSession m₂ sid (setLastRound st₂ (withDecision rr₂ dec)))
        (setLastRound st₂ (withDecision rr₂ dec))
        h1b
        (by simp only [setLastRound]; rw [hcterm]; simp [afterBeginRound, h2])
        (by simp only [setLastRound]; rw [hcmax, hccur]; simp [afterBeginRound]; omega)
        (by rw [setLastRound_length st₂ _ hne₂]
            simp only [setLastRound]
            rw [hclen, hccur]
            simp [afterBeginRound, h4])
    refine ⟨m', st', ?_, hget', hterm', ?_, ?_, ?_, ?_⟩
    · show delib_loop env doctors sid (k + 1) m = (Except.ok (), m')
      rw [show delib_loop env doctors sid (k + 1) m =
          delib_loop env doctors sid k (withSession m₂ sid (setLastRound st₂ (withDecision rr₂ dec)))
        from ?_]
      · exact hrun'
      · simp only [delib_loop, h1, h2, hbegin, collect_doctor_opinions, hcrun, hmk]
        simp [hnle]
    · rw [hmax']
      simp only [setLastRound]
      rw [hcmax]
      simp [afterBeginRound]
    · rw [hcur']
      simp only [setLastRound]
      rw [hcmax]
      simp [afterBeginRound]
    · rw [hlen']
      simp only [setLastRound]
      rw [hcmax]
      simp [afterBeginRound]
    · rw [hreason']
      simp only [setLastRound]
      rw [hcreason]
      simp [afterBeginRound]

/-- The outcome list of `max_rounds - current_round + 1` consecutive
`begin_round` calls: the successful round indices, then the round-limit
error. -/
def expectedRounds (c : Nat) : Nat → List (Except EngineError Nat)
  | 0 => [.error .roundLimitReached]
  | k + 1 => .ok (c + 1) :: expectedRounds (c + 1) k

theorem expectedRounds_eq (k : Nat) :
    ∀ c, expectedRounds c k =
      (List.range k).map (fun j => Except.ok (c + j + 1)) ++
        [Except.error EngineError.roundLimitReached] := by
  induction k with
  | zero => intro c; simp [expectedRounds]
  | succ k ih =>
    intro c
    rw [expectedRounds, ih (c + 1), List.range_succ_eq_map]
    simp only [List.map_cons, List.map_map, List.cons_append]
    refine congrArg₂ _ (by simp) ?_
    refine congrArg₂ _ ?_ rfl
    apply List.map_congr_left
    intro j hj
    simp [Function.comp]
    omega

theorem beginRoundTimes_fresh (sid : String) :
    ∀ (k : Nat) (m : Manager) (st : SessionState),
      pyGet m.sessions sid = some st →
      st.terminated = false →
      st.max_rounds = st.current_round + k →
      (beginRoundTimes m sid (k + 1)).1 = expectedRounds st.current_round k ∧
      ∃ stf, pyGet (beginRoundTimes m sid (k + 1)).2.sessions sid = some stf ∧
        stf.terminated = true ∧ stf.termination_reason = some "라운드 한도 도달" := by
  intro k
  induction k with
  | zero =>
    intro m st h1 h2 h3
    have hle : st.max_rounds ≤ st.current_round := by omega
    constructor
    · simp [beginRoundTimes, begin_round, h1, h2, hle, expectedRounds]
    · refine ⟨{ st with terminated := true, termination_reason := some "라운드 한도 도달" },
        ?_, rfl, rfl⟩
      simp [beginRoundTimes, begin_round, h1, h2, hle, pyGet_pySet_self]
  | succ k ih =>
    intro m st h1 h2 h3
    have hlt : st.current_round < st.max_rounds := by omega
    have hbegin := begin_round_eq m sid st h1 h2 hlt
    have h1a : pyGet (withSession m sid (afterBeginRound st)).sessions sid
        = some (afterBeginRound st) := by
      simp [withSession, pyGet_pySet_self]
    obtain ⟨ihlist, stf, ihget, ihterm, ihreason⟩ :=
      ih (withSession m sid (afterBeginRound st)) (afterBeginRound st)
        h1a (by simp [afterBeginRound, h2]) (by simp [afterBeginRound]; omega)
    have hfst : (beginRoundTimes m sid (k + 1 + 1)).1 =
        Except.ok (st.current_round + 1) ::
          (beginRoundTimes (withSession m sid (afterBeginRound st)) sid (k + 1)).1 := by
      simp [beginRoundTimes, hbegin]
    have hsnd : (beginRoundTimes m sid (k + 1 + 1)).2 =
        (beginRoundTimes (withSession m sid (afterBeginRound st)) sid (k + 1)).2 := by
      simp [beginRoundTimes, hbegin]
    constructor
    · rw [hfst, ihlist, expectedRounds]
      simp [afterBeginRound]
    · refine ⟨stf, ?_, ihterm, ihreason⟩
      rw [hsnd]
      exact ihget

theorem roundBound_after_set (m : Manager) (sid' : String) (stNew : SessionState)
    (h : ∀ sid st, pyGet m.sessions sid = some st → st.current_round ≤ st.max_rounds)
    (hnew : stNew.current_round ≤ stNew.max_rounds) :
    ∀ sid st, pyGet (pySet m.sessions sid' stNew) sid = some st →
      st.current_round ≤ st.max_rounds := by
  intro sid st hget
  by_cases he : sid = sid'
  · subst he
    rw [pyGet_pySet_self] at hget
    cases hget
    exact hnew
  · rw [pyGet_pySet_ne _ _ _ _ he] at hget
    exact h sid st hget

theorem execOp_roundBound (m : Manager) (op : EngineOp)
    (h : ∀ sid st, pyGet m.sessions sid = some st → st.current_round ≤ st.max_rounds) :
    ∀ sid st, pyGet (execOp m op).sessions sid = some st →
      st.current_round ≤ st.max_rounds := by
  cases op with
  | startSession sid' ctx =>
    rcases hs : pyGet m.sessions sid' with _ | st₀
    · simp only [execOp, start_session, hs]
      exact roundBound_after_set m sid' _ h (Nat.zero_le _)
    · simpa [execOp, start_session, hs] using h
  | beginRound sid' =>
    rcases hs : pyGet m.sessions sid' with _ | st₀
    · simpa [execOp, begin_round, hs] using h
    · by_cases ht : st₀.terminated
      · simpa [execOp, begin_round, hs, ht] using h
      · have ht' : st₀.terminated = false := by simpa using ht
        by_cases hle : st₀.max_rounds ≤ st₀.current_round
        · intro sid st hget
          have he : (begin_round m sid').2 = withSession m sid'
              { st₀ with terminated := true, termination_reason := some "라운드 한도 도달" } := by
            simp [begin_round, hs, ht', hle, withSession]
          simp only [execOp] at hget
          rw [he] at hget
          exact roundBound_after_set m sid'
            { st₀ with terminated := true, termination_reason := some "라운드 한도 도달" }
            h (by simpa using h sid' st₀ hs) sid st
            (by simpa [withSession] using hget)
        · intro sid st hget
          have hlt : st₀.current_round < st₀.max_rounds := Nat.not_le.mp hle
          have he := begin_round_eq m sid' st₀ hs ht' hlt
          simp only [execOp] at hget
          rw [he] at hget
          exact roundBound_after_set m sid' (afterBeginRound st₀)
            h (by simp [afterBeginRound]; omega) sid st
            (by simpa [withSession] using hget)
  | addOpinion sid' doctor_id o =>
    rcases hs : pyGet m.sessions sid' with _ | st₀
    · simpa [execOp, add_doctor_opinion, hs] using h
    · rcases hl : st₀.rounds.getLast? with _ | rr
      · simpa [execOp, add_doctor_opinion, hs, hl] using h
      · simp only [execOp, add_doctor_opinion, hs, hl, validate_doctor_opinion]
        exact roundBound_after_set m sid' _ h
          (by simpa [setLastRound] using h sid' st₀ hs)
  | recordDecision sid' d =>
    rcases hs : pyGet m.sessions sid' with _ | st₀
    · simpa [execOp, record_supervisor_decision, hs] using h
    · rcases hl : st₀.rounds.getLast? with _ | rr
      · simpa [execOp, record_supervisor_decision, hs, hl] using h
      · simp only [execOp, record_supervisor_decision, hs, hl, validate_supervisor_decision]
        exact roundBound_after_set m sid' _ h
          (by simpa [setLastRound] using h sid' st₀ hs)
  | endSession sid' reason =>
    rcases hs : pyGet m.sessions sid' with _ | st₀
    · simpa [execOp, end_session, hs] using h
    · simp only [execOp, end_session, hs]
      exact roundBound_after_set m sid' _ h (by simpa using h sid' st₀ hs)

theorem execOps_roundBound (ops : List EngineOp) :
    ∀ (m : Manager),
      (∀ sid st, pyGet m.sessions sid = some st → st.current_round ≤ st.max_rounds) →
      ∀ sid st, pyGet (execOps m ops).sessions sid = some st →
        st.current_round ≤ st.max_rounds := by
  induction ops with
  | nil =>
    intro m h
    simpa [execOps] using h
  | cons op rest ih =>
    intro m h
    have hstep := execOp_roundBound m op h
    simpa [execOps, List.foldl] using ih (execOp m op) hstep

-- ---------- Theorems: C8, C9 ----------

/-- C8: calling `start_session` a second time with the same identifier (and
any context) returns exactly the session returned by the first call and
leaves the registry untouched, so the existing session's context, round
list and round counter are not overwritten or reset. -/
theorem start_session_idempotent (m : Manager) (sid : String) (ctx ctx' : CaseContext) :
    start_session (start_session m sid ctx).2 sid ctx' =
      ((start_session m sid ctx).1, (start_session m sid ctx).2) := by
  unfold start_session
  cases h : pyGet m.sessions sid with
  | some st => simp [h]
  | none => simp [h, pyGet_pySet_self]

theorem pyGet_filter_of_pred {α : Type} (pred : String → Bool) (p : PyDict α) (k : String)
    (hk : pred k = true) :
    pyGet (p.filter (fun kv => pred kv.1)) k = pyGet p k := by
  induction p with
  | nil => simp [pyGet]
  | cons hd tl ih =>
    obtain ⟨k₀, v₀⟩ := hd
    by_cases h : k₀ = k
    · subst h
      simp [List.filter_cons, hk, pyGet]
    · cases hpred : pred k₀ <;> simp [List.filter_cons, hpred, pyGet, h, ih]

theorem pyGet_filter_of_not_pred {α : Type} (pred : String → Bool) (p : PyDict α) (k : String)
    (hk : pred k = false) :
    pyGet (p.filter (fun kv => pred kv.1)) k = none := by
  induction p with
  | nil => simp [pyGet]
  | cons hd tl ih =>
    obtain ⟨k₀, v₀⟩ := hd
    by_cases h : k₀ = k
    · subst h
      simp [List.filter_cons, hk, ih]
    · cases hpred : pred k₀ <;> simp [List.filter_cons, hpred, pyGet, h, ih]

/-- C9: `redact_for_log` returns a payload with no `"free_text"` key while
every other key keeps exactly the value it has in the input; the input
payload itself is untouched (the source operates on `dict(payload)`, a
copy, and the embedding is a pure function of the input). -/
theorem redact_for_log_spec {α : Type} (payload : PyDict α) (k : String) :
    pyGet (redact_for_log payload) "free_text" = none ∧
    (k ≠ "free_text" → pyGet (redact_for_log payload) k = pyGet payload k) := by
  constructor
  · exact pyGet_filter_of_not_pred (fun s => s != "free_text") payload "free_text" (by decide)
  · intro hk
    exact pyGet_filter_of_pred (fun s => s != "free_text") payload k
      (by simp [bne_iff_ne, hk])

/-- Witness for C9 at a concrete payload. -/
theorem redact_for_log_spec_witness :
    pyGet (redact_for_log [("free_text", "PHI"), ("age", "44")]) "age" =
      pyGet [("free_text", "PHI"), ("age", "44")] "age" :=
  (redact_for_log_spec [("free_text", "PHI"), ("age", "44")] "age").2 (by decide)

-- ---------- Theorems: C1 ----------

/-- C1: code-bug evidence.  In `c1_round` the three doctors' hypothesis
sets (and test sets) are pairwise disjoint after normalization, so no
normalized hypothesis or test string appears in the Opinions of two or more
distinct experts (`specOverlapConsensus` is false), and the recorded
Decision carries no termination reason; yet `reached_consensus` returns
`true`, because `_check_doctor_consensus` counts string occurrences over the
concatenation of all lists — and doctor_1 alone lists the same normalized
hypothesis (and test) twice — contradicting the code's own comment
"at least 2 doctors agree on same hypothesis". -/
theorem reached_consensus_counts_occurrences :
    reached_consensus c1_manager "s" = .ok true ∧
    specOverlapConsensus c1_round = false ∧
    c1_round.doctor_opinions.length = 3 ∧
    (c1_round.supervisor_decision.map (fun d => pyTruthyOptStr d.termination_reason))
      = some false := by
  refine ⟨?_, ?_, ?_, ?_⟩ <;> rfl

-- ---------- Theorems: C2 ----------

/-- C2: a `start_deliberation` run on a fresh session with a three-doctor
panel and a positive round budget completes without error, executes every
configured round (never stopping early on consensus — the loop never
consults `reached_consensus`, whatever the doctors and the backend return),
reports `total_rounds = max_rounds`, and ends the session with the
round-budget completion reason `"{max_rounds}라운드 완료"`. -/
theorem start_deliberation_runs_all_rounds (env : DelibEnv)
    (doctors : List (Nat → DoctorResult)) (m : Manager) (sid : String) (ctx : CaseContext)
    (hdoc : doctors.length = 3) (hfresh : pyGet m.sessions sid = none)
    (hpos : 1 ≤ m.max_rounds) :
    ∃ res m',
      start_deliberation env doctors m sid ctx = (.ok res, m') ∧
      res.success = true ∧
      res.total_rounds = m.max_rounds ∧
      res.termination_reason = some (toString m.max_rounds ++ "라운드 완료") := by
  have hstart := start_session_fresh m sid ctx hfresh
  have h1 : pyGet (withSession m sid (freshSession sid ctx m.max_rounds)).sessions sid
      = some (freshSession sid ctx m.max_rounds) := by
    simp [withSession, pyGet_pySet_self]
  obtain ⟨m2, st', hloop, hget, hterm, hmax, hcur, hlen, hreason⟩ :=
    delib_loop_run env doctors sid m.max_rounds
      (withSession m sid (freshSession sid ctx m.max_rounds))
      (freshSession sid ctx m.max_rounds) h1 rfl (by simp [freshSession]) rfl
  set reasonStr := toString m.max_rounds ++ "라운드 완료" with hreasonStr
  set stF := { st' with terminated := true, termination_reason := some reasonStr } with hstF
  have hend : end_session m2 sid (some reasonStr) = withSession m2 sid stF := by
    simp [end_session, hget, withSession, hstF]
  have hgetF : pyGet (withSession m2 sid stF).sessions sid = some stF := by
    simp [withSession, pyGet_pySet_self]
  have hlenF : stF.rounds.length = m.max_rounds := by
    have : st'.rounds.length = m.max_rounds := by
      rw [hlen]
      simp [freshSession]
    simpa [hstF] using this
  have hneF : stF.rounds ≠ [] := by
    intro hnil
    rw [hnil] at hlenF
    simp at hlenF
    omega
  have h3 : ¬ doctors.length ≠ 3 := by simp [hdoc]
  have hsd : start_deliberation env doctors m sid ctx =
      (.ok (format_deliberation_result (withSession m2 sid stF) sid), withSession m2 sid stF) := by
    simp only [start_deliberation, hstart, hloop, hget, hterm]
    simp only [hdoc, ne_eq, not_true_eq_false, Bool.false_eq_true, if_false, ite_false]
    rw [← hreasonStr, hend]
  refine ⟨format_deliberation_result (withSession m2 sid stF) sid, withSession m2 sid stF,
    hsd, ?_, ?_, ?_⟩
  · simp [format_deliberation_result, hgetF, hneF]
  · simp [format_deliberation_result, hgetF, hneF, hlenF]
  · simp [format_deliberation_result, hgetF, hneF, hstF]

/-- Witness for C2 at a concrete two-round configuration in which one
doctor always fails and the backend always answers. -/
theorem start_deliberation_runs_all_rounds_witness :
    (doctorsW.length = 3 ∧
     pyGet ({ max_rounds := 2, sessions := [] } : Manager).sessions "s" = none ∧
     1 ≤ ({ max_rounds := 2, sessions := [] } : Manager).max_rounds) ∧
    (∃ res m',
      start_deliberation envW doctorsW { max_rounds := 2, sessions := [] } "s" ctx0 =
        (.ok res, m') ∧
      res.success = true ∧
      res.total_rounds = ({ max_rounds := 2, sessions := [] } : Manager).max_rounds ∧
      res.termination_reason =
        some (toString ({ max_rounds := 2, sessions := [] } : Manager).max_rounds ++ "라운드 완료")) :=
  ⟨⟨rfl, rfl, by decide⟩,
   start_deliberation_runs_all_rounds envW doctorsW { max_rounds := 2, sessions := [] } "s" ctx0
     rfl rfl (by decide)⟩

-- ---------- Theorems: C3 ----------

/-- C3: under any sequence of engine operations starting from a fresh
manager, `current_round` never exceeds `max_rounds`; and on a fresh session
`begin_round` called `max_rounds + 1` times succeeds the first `max_rounds`
times returning round indices `1..max_rounds`, while the final call fails
with the round-limit error and leaves the session terminated with the
round-limit reason `"라운드 한도 도달"`. -/
theorem current_round_bounded_and_round_limit (R : Nat) (ops : List EngineOp)
    (sid sid' : String) (ctx : CaseContext) (st : SessionState)
    (h : pyGet (execOps { max_rounds := R, sessions := [] } ops).sessions sid' = some st) :
    st.current_round ≤ st.max_rounds ∧
    (beginRoundTimes (start_session { max_rounds := R, sessions := [] } sid ctx).2 sid (R + 1)).1 =
      (List.range R).map (fun j => Except.ok (j + 1)) ++
        [Except.error EngineError.roundLimitReached] ∧
    ∃ stf,
      pyGet (beginRoundTimes (start_session { max_rounds := R, sessions := [] } sid ctx).2 sid
        (R + 1)).2.sessions sid = some stf ∧
      stf.terminated = true ∧ stf.termination_reason = some "라운드 한도 도달" := by
  have hempty : ∀ s t,
      pyGet ({ max_rounds := R, sessions := [] } : Manager).sessions s = some t →
      t.current_round ≤ t.max_rounds := by
    intro s t ht
    simp [pyGet] at ht
  have hfresh : pyGet ({ max_rounds := R, sessions := [] } : Manager).sessions sid = none := by
    simp [pyGet]
  have hstart := start_session_fresh { max_rounds := R, sessions := [] } sid ctx hfresh
  have h1 : pyGet ((start_session { max_rounds := R, sessions := [] } sid ctx).2).sessions sid
      = some (freshSession sid ctx R) := by
    rw [hstart]
    simp [withSession, pyGet_pySet_self]
  obtain ⟨hlist, stf, hg, ht2, hr2⟩ :=
    beginRoundTimes_fresh sid R (start_session { max_rounds := R, sessions := [] } sid ctx).2
      (freshSession sid ctx R) h1 rfl (by simp [freshSession])
  refine ⟨execOps_roundBound ops _ hempty sid' st h, ?_, stf, hg, ht2, hr2⟩
  rw [hlist, expectedRounds_eq]
  simp [freshSession]

/-- Witness for C3 at `max_rounds = 2`. -/
theorem current_round_bounded_and_round_limit_witness :
    pyGet (execOps { max_rounds := 2, sessions := [] }
        [EngineOp.startSession "a" ctx0]).sessions "a" = some (freshSession "a" ctx0 2) ∧
    ((freshSession "a" ctx0 2).current_round ≤ (freshSession "a" ctx0 2).max_rounds ∧
     (beginRoundTimes (start_session { max_rounds := 2, sessions := [] } "s" ctx0).2 "s" (2 + 1)).1 =
       (List.range 2).map (fun j => Except.ok (j + 1)) ++
         [Except.error EngineError.roundLimitReached] ∧
     ∃ stf,
       pyGet (beginRoundTimes (start_session { max_rounds := 2, sessions := [] } "s" ctx0).2 "s"
         (2 + 1)).2.sessions "s" = some stf ∧
       stf.terminated = true ∧ stf.termination_reason = some "라운드 한도 도달") :=
  ⟨rfl, current_round_bounded_and_round_limit 2 [EngineOp.startSession "a" ctx0] "s" "a" ctx0
    (freshSession "a" ctx0 2) rfl⟩

-- ---------- Theorems: C4 ----------

/-- C4: the supervisor decision step issues at most one continuation call to
the backend in every case; when the initial response has empty content
flagged as truncated (`finish_reason = "length"`) exactly one continuation
call is issued; and when that continuation also returns empty content the
step returns the recorded fallback Decision — whose rationale names the
underlying error — instead of propagating an exception. -/
theorem supervisor_truncation_retry_once (m : Manager) (sid : String) (round_number : Nat)
    (st : SessionState) (rr : RoundRecord) (fr : Option String)
    (h1 : pyGet m.sessions sid = some st) (h2 : st.rounds.getLast? = some rr) :
    (∀ init cont, (make_supervisor_decision m sid round_number init cont).2.2 ≤ 1) ∧
    (∀ cont,
      (make_supervisor_decision m sid round_number (.ok "" (some "length")) cont).2.2 = 1) ∧
    (make_supervisor_decision m sid round_number (.ok "" (some "length")) (.ok "" fr)).1 =
      .ok (supervisor_fallback_decision "Supervisor LLM returned empty content after retry.") := by
  refine ⟨?_, ?_, ?_⟩
  · intro init cont
    rw [make_supervisor_decision_count]
    exact supervisor_step_count_le_one init cont
  · intro cont
    rw [make_supervisor_decision_count]
    cases cont with
    | raise msg => simp [supervisor_step, ensure_valid_response]
    | ok c2 fr2 =>
      by_cases hc2 : c2 ≠ "" <;> simp [supervisor_step, ensure_valid_response, hc2]
  · rw [make_supervisor_decision_eq m sid round_number _ _ st rr h1 h2]
    simp [supervisor_outcome, supervisor_step, ensure_valid_response]

/-- Witness for C4 at a concrete open session. -/
theorem supervisor_truncation_retry_once_witness :
    (pyGet mOpen.sessions "s" = some stOpen ∧
     stOpen.rounds.getLast? = some { round_index := 1 }) ∧
    ((∀ init cont, (make_supervisor_decision mOpen "s" 1 init cont).2.2 ≤ 1) ∧
     (∀ cont, (make_supervisor_decision mOpen "s" 1 (.ok "" (some "length")) cont).2.2 = 1) ∧
     (make_supervisor_decision mOpen "s" 1 (.ok "" (some "length")) (.ok "" none)).1 =
       .ok (supervisor_fallback_decision "Supervisor LLM returned empty content after retry.")) :=
  ⟨⟨rfl, rfl⟩,
   supervisor_truncation_retry_once mOpen "s" 1 stOpen { round_index := 1 } none rfl rfl⟩

-- ---------- Theorems: C5 ----------

/-- C5: for a session with an open round, `_collect_doctor_opinions` over a
three-doctor panel never aborts: it returns successfully, records one
opinion per configured expert (`doctor_1`, `doctor_2`, `doctor_3`) into the
current round, and for every expert whose call raised the recorded opinion
is exactly the fallback (`hypotheses = ["추가 검토 필요"]`,
`diagnostic_tests = ["전문의 상담"]`, reasoning citing the error) while the
remaining experts are still queried and recorded. -/
theorem collect_doctor_opinions_substitutes_fallback (m : Manager) (sid : String)
    (st : SessionState) (rr : RoundRecord) (r1 r2 r3 : DoctorResult)
    (h1 : pyGet m.sessions sid = some st) (h2 : st.rounds.getLast? = some rr) :
    ∃ d m' st' rr',
      collect_doctor_opinions m sid [r1, r2, r3] = (.ok d, m') ∧
      pyGet m'.sessions sid = some st' ∧
      st'.rounds.getLast? = some rr' ∧
      pyGet rr'.doctor_opinions "doctor_1" = some (resolve_doctor_result r1) ∧
      pyGet rr'.doctor_opinions "doctor_2" = some (resolve_doctor_result r2) ∧
      pyGet rr'.doctor_opinions "doctor_3" = some (resolve_doctor_result r3) ∧
      pyGet d "doctor_1" = some (resolve_doctor_result r1) ∧
      pyGet d "doctor_2" = some (resolve_doctor_result r2) ∧
      pyGet d "doctor_3" = some (resolve_doctor_result r3) ∧
      (∀ msg, resolve_doctor_result (.error msg) = collect_fallback_opinion msg) := by
  obtain ⟨m', st', rr', hrun, hget, hlast, hdict, -, -, -, -, -⟩ :=
    collect_go_run sid [r1, r2, r3] m [] 1 st rr h1 h2
  have e1 : ("doctor_" ++ toString (1 : Nat)) = "doctor_1" := rfl
  have e2 : ("doctor_" ++ toString (1 + 1 : Nat)) = "doctor_2" := rfl
  have e3 : ("doctor_" ++ toString (1 + 1 + 1 : Nat)) = "doctor_3" := rfl
  have h12 : ("doctor_1" : String) ≠ "doctor_2" := by decide
  have h13 : ("doctor_1" : String) ≠ "doctor_3" := by decide
  have h23 : ("doctor_2" : String) ≠ "doctor_3" := by decide
  have happly : ∀ (D : PyDict DoctorOpinion),
      applyResults D 1 [r1, r2, r3] =
        pySet (pySet (pySet D "doctor_1" (resolve_doctor_result r1))
          "doctor_2" (resolve_doctor_result r2)) "doctor_3" (resolve_doctor_result r3) := by
    intro D
    simp only [applyResults]
    rw [e1, e2, e3]
  refine ⟨applyResults [] 1 [r1, r2, r3], m', st', rr', hrun, hget, hlast,
    ?_, ?_, ?_, ?_, ?_, ?_, fun msg => rfl⟩
  · rw [hdict, happly, pyGet_pySet_ne _ _ _ _ h13, pyGet_pySet_ne _ _ _ _ h12,
      pyGet_pySet_self]
  · rw [hdict, happly, pyGet_pySet_ne _ _ _ _ h23, pyGet_pySet_self]
  · rw [hdict, happly, pyGet_pySet_self]
  · rw [happly, pyGet_pySet_ne _ _ _ _ h13, pyGet_pySet_ne _ _ _ _ h12, pyGet_pySet_self]
  · rw [happly, pyGet_pySet_ne _ _ _ _ h23, pyGet_pySet_self]
  · rw [happly, pyGet_pySet_self]

/-- Witness for C5 at a concrete open session where the second doctor's
call raises. -/
theorem collect_doctor_opinions_substitutes_fallback_witness :
    (pyGet mOpen.sessions "s" = some stOpen ∧
     stOpen.rounds.getLast? = some { round_index := 1 }) ∧
    (∃ d m' st' rr',
      collect_doctor_opinions mOpen "s" [.ok opinionA, .error "llm timeout", .ok opinionA] =
        (.ok d, m') ∧
      pyGet m'.sessions "s" = some st' ∧
      st'.rounds.getLast? = some rr' ∧
      pyGet rr'.doctor_opinions "doctor_1" = some (resolve_doctor_result (.ok opinionA)) ∧
      pyGet rr'.doctor_opinions "doctor_2" = some (resolve_doctor_result (.error "llm timeout")) ∧
      pyGet rr'.doctor_opinions "doctor_3" = some (resolve_doctor_result (.ok opinionA)) ∧
      pyGet d "doctor_1" = some (resolve_doctor_result (.ok opinionA)) ∧
      pyGet d "doctor_2" = some (resolve_doctor_result (.error "llm timeout")) ∧
      pyGet d "doctor_3" = some (resolve_doctor_result (.ok opinionA)) ∧
      (∀ msg, resolve_doctor_result (.error msg) = collect_fallback_opinion msg)) :=
  ⟨⟨rfl, rfl⟩,
   collect_doctor_opinions_substitutes_fallback mOpen "s" stOpen { round_index := 1 }
     (.ok opinionA) (.error "llm timeout") (.ok opinionA) rfl rfl⟩

-- ---------- Theorems: C6 ----------

/-- C6 counterexample: after starting a fresh session and opening round 1,
the current round has no recorded supervisor Decision and the session is
not terminated — yet `begin_round` succeeds again and opens round 2, so a
subsequent round CAN be opened with the current round still undecided. -/
theorem begin_round_opens_despite_missing_decision :
    (get_session mUndecided "s").map (fun st => st.terminated) = some false ∧
    ((get_session mUndecided "s").bind (fun st => st.rounds.getLast?)).bind
      (fun rr => rr.supervisor_decision) = none ∧
    (begin_round mUndecided "s").1 = .ok 2 :=
  ⟨rfl, rfl, rfl⟩

/-- C6 (amended): `begin_round` gates a new round only on the session
existing, not being terminated, and the round budget not being exhausted;
it does not require the current round to carry a recorded Decision, and
opens the next round regardless. -/
theorem begin_round_no_decision_gate (m : Manager) (sid : String) (st : SessionState)
    (h1 : pyGet m.sessions sid = some st) (h2 : st.terminated = false)
    (h3 : st.current_round < st.max_rounds) :
    (begin_round m sid).1 = .ok (st.current_round + 1) ∧
    ∃ st', pyGet (begin_round m sid).2.sessions sid = some st' ∧
      st'.rounds.length = st.rounds.length + 1 := by
  rw [begin_round_eq m sid st h1 h2 h3]
  exact ⟨rfl, afterBeginRound st, by simp [withSession, pyGet_pySet_self],
    by simp [afterBeginRound]⟩

/-- Witness for the amended C6 at the concrete undecided-round session. -/
theorem begin_round_no_decision_gate_witness :
    (pyGet mUndecided.sessions "s" = some (afterBeginRound (freshSession "s" ctx0 7)) ∧
     (afterBeginRound (freshSession "s" ctx0 7)).terminated = false ∧
     (afterBeginRound (freshSession "s" ctx0 7)).current_round <
       (afterBeginRound (freshSession "s" ctx0 7)).max_rounds) ∧
    ((begin_round mUndecided "s").1 =
        .ok ((afterBeginRound (freshSession "s" ctx0 7)).current_round + 1) ∧
     ∃ st', pyGet (begin_round mUndecided "s").2.sessions "s" = some st' ∧
       st'.rounds.length = (afterBeginRound (freshSession "s" ctx0 7)).rounds.length + 1) :=
  ⟨⟨rfl, rfl, by decide⟩,
   begin_round_no_decision_gate mUndecided "s" (afterBeginRound (freshSession "s" ctx0 7))
     rfl rfl (by decide)⟩

-- ---------- Theorems: C7 ----------

/-- C7 counterexample: the session layer does not enforce the caps — the
stored shape validation only checks that the fields are lists, so
`add_doctor_opinion` accepts and stores an opinion with six hypotheses and
an empty test list unchanged. -/
theorem add_doctor_opinion_accepts_oversized :
    (add_doctor_opinion mOpen "s" "doctor_1" oversized_opinion).1 = .ok () ∧
    (((pyGet (add_doctor_opinion mOpen "s" "doctor_1" oversized_opinion).2.sessions "s").bind
        (fun st => st.rounds.getLast?)).bind
      (fun rr => pyGet rr.doctor_opinions "doctor_1")) = some oversized_opinion ∧
    5 < oversized_opinion.hypotheses.length ∧
    oversized_opinion.diagnostic_tests = [] :=
  ⟨rfl, rfl, by decide, rfl⟩

/-- C7 (amended): every Opinion the DoctorAgent pipeline produces — the
parse result of any raw response and each of the error fallbacks — has at
most 5 hypotheses, at most 5 tests, and neither list empty; but this is
enforced by the producers only: the session-store validator checks only
that the fields are lists (see the counterexample). -/
theorem doctor_pipeline_opinion_caps (specialty response err : String) (round_number : Nat)
    (is_update : Bool) :
    ((parse_doctor_response specialty response round_number is_update).hypotheses.length ≤ 5 ∧
     (parse_doctor_response specialty response round_number is_update).diagnostic_tests.length ≤ 5 ∧
     (parse_doctor_response specialty response round_number is_update).hypotheses ≠ [] ∧
     (parse_doctor_response specialty response round_number is_update).diagnostic_tests ≠ []) ∧
    ((doctor_fallback_opinion err).hypotheses.length ≤ 5 ∧
     (doctor_fallback_opinion err).diagnostic_tests.length ≤ 5 ∧
     (doctor_fallback_opinion err).hypotheses ≠ [] ∧
     (doctor_fallback_opinion err).diagnostic_tests ≠ []) ∧
    ((collect_fallback_opinion err).hypotheses.length ≤ 5 ∧
     (collect_fallback_opinion err).diagnostic_tests.length ≤ 5 ∧
     (collect_fallback_opinion err).hypotheses ≠ [] ∧
     (collect_fallback_opinion err).diagnostic_tests ≠ []) ∧
    ((doctor_parse_error_opinion specialty err).hypotheses.length ≤ 5 ∧
     (doctor_parse_error_opinion specialty err).diagnostic_tests.length ≤ 5 ∧
     (doctor_parse_error_opinion specialty err).hypotheses ≠ [] ∧
     (doctor_parse_error_opinion specialty err).diagnostic_tests ≠ []) := by
  have htake : ∀ (l : List String), l ≠ [] → l.take 5 ≠ [] := by
    intro l hl
    cases l with
    | nil => exact absurd rfl hl
    | cons a t => simp
  refine ⟨⟨?_, ?_, ?_, ?_⟩, ?_, ?_, ?_⟩
  · simp only [parse_doctor_response]
    split_ifs <;> simp [List.length_take]
  · simp only [parse_doctor_response]
    split_ifs <;> simp [List.length_take]
  · simp only [parse_doctor_response]
    split_ifs with hh
    · simp
    · exact htake _ hh
  · simp only [parse_doctor_response]
    split_ifs with hh
    · simp
    · exact htake _ hh
  · simp [doctor_fallback_opinion]
  · simp [collect_fallback_opinion]
  · simp [doctor_parse_error_opinion]

-- ---------- Theorems: C10 ----------

/-- C10: when the shared state has no recorded supervisor decision,
`_should_continue_consultation` returns `"continue"` for every state —
including states whose `current_round` already reached or exceeded
`max_rounds` — and the supervisor node records no decision when its
evaluation raises, so the state it leaves behind still routes to
`"continue"`. -/
theorem consultation_continues_without_decision (st : OrchState) (msg : String)
    (h : st.supervisor_decisions = []) :
    should_continue_consultation st = "continue" ∧
    (supervisor_consensus_node (.error msg) st).supervisor_decisions = [] ∧
    should_continue_consultation (supervisor_consensus_node (.error msg) st) = "continue" := by
  refine ⟨?_, ?_, ?_⟩
  · simp [should_continue_consultation, h]
  · simp [supervisor_consensus_node, h]
  · simp [supervisor_consensus_node, should_continue_consultation, h]

/-- Witness for C10 at a state nine rounds in with a budget of three. -/
theorem consultation_continues_without_decision_witness :
    orchStateW.supervisor_decisions = [] ∧
    (should_continue_consultation orchStateW = "continue" ∧
     (supervisor_consensus_node (.error "no evaluation") orchStateW).supervisor_decisions = [] ∧
     should_continue_consultation
       (supervisor_consensus_node (.error "no evaluation") orchStateW) = "continue") :=
  ⟨rfl, consultation_continues_without_decision orchStateW "no evaluation" rfl⟩

end MedBlip
